import Mathlib

/-!
XY-TEK flow sensor driver.

A shallow embedding of `XYTEKFlow.h` / `XYTEKFlow.cpp`: the register command
table, the driver object with its cached readings, the register read / write
helpers, the word-to-float reassembly, the sensor operations and the polling
`loop`.

Conventions.
* Machine integers are natural numbers; truncation is written where the C++
  type truncates (`% 256`, `% 65536`, `% 2 ^ 32`).
* A `float` is represented by its 32-bit pattern, so `flow_rate : Nat` is the
  pattern of the C++ member `float flow_rate`.
* The unions `float_temp` / `word_temp` are four bytes with the little-endian
  layout of the Arduino targets: `u16[0]` is bytes 0 and 1 (byte 0 least
  significant), `f` / `u32` is bytes 0 to 3 (byte 0 least significant).
* `int` is 32 bits wide; a value stored into a `uint32_t` is taken modulo
  `2 ^ 32`.
* `delay(50)` has no effect on the driver object and is not represented.
-/

/-! ## Register command table (`XYTEKFlow.h`, lines 25 to 49) -/

/-- One row `{addr, n_r}` of the command table: `.1` is element `[0]` (the
register address), `.2` is element `[1]` (the number of 16-bit registers). -/
abbrev Command := Nat × Nat

def XYTEKFLOW_CMD_APP_UPDATE_REQ : Command := (0x200, 1)
def XYTEKFLOW_CMD_ZERO_CAL_TIME : Command := (0x2A6, 2)
def XYTEKFLOW_CMD_TEMP_PD : Command := (0x2A2, 1)
def XYTEKFLOW_CMD_TEMP_EN : Command := (0x2A8, 1)
def XYTEKFLOW_CMD_RESET_VOLUME : Command := (0x400, 1)
def XYTEKFLOW_CMD_ZERO_CAL_START : Command := (0x401, 1)
def XYTEKFLOW_CMD_SEARCH_DEVICE : Command := (0x613, 2)
def XYTEKFLOW_CMD_APP_REQ_VOL : Command := (0x809, 2)
def XYTEKFLOW_CMD_SYSTEM_STAT : Command := (0x813, 1)
def XYTEKFLOW_CMD_APP_REQ_TEMP : Command := (0x815, 1)
def XYTEKFLOW_CMD_ZERO_CAL_TAG : Command := (0x9AD, 1)
def XYTEKFLOW_CMD_ZERO_CAL_VALUE : Command := (0x9AE, 2)
def XYTEKFLOW_CMD_USER_INFO : Command := (0x9B0, 8)
def XYTEKFLOW_CMD_USR_REQ_BUB_STAT : Command := (0x1000, 2)
def XYTEKFLOW_CMD_USR_REQ_VOL : Command := (0x1002, 2)
def XYTEKFLOW_CMD_USR_REQ_POS_VOL : Command := (0x1004, 2)
def XYTEKFLOW_CMD_USR_REQ_NEG_VOL : Command := (0x1006, 2)
def XYTEKFLOW_CMD_USR_REQ_FLOW_RATE_REALTIME : Command := (0x1008, 2)
def XYTEKFLOW_CMD_USR_REQ_FLOW_RATE_AVG1S : Command := (0x100A, 2)
def XYTEKFLOW_CMD_USR_REQ_FLOW_RATE_AVG2S : Command := (0x100C, 2)

/-- Capacity of the receive buffer, `uint16_t received_data[40]`. -/
def RECEIVED_DATA_SIZE : Nat := 40

/-! ## The bus transport (`ModbusMaster2`, a collaborator outside the sources) -/

/-- One bus transaction, as the driver hands it to the transport. -/
inductive Txn where
  | readHoldingRegisters (addr qty : Nat)
  | writeSingleRegister (addr value : Nat)
  | writeMultipleRegisters (addr qty : Nat) (data : List Nat)
  deriving DecidableEq, Repr

/-- Whether a transaction is a register read. -/
def Txn.isRead : Txn → Bool
  | .readHoldingRegisters _ _ => true
  | _ => false

/-- Whether a transaction is a register write (single or multiple). -/
def Txn.isWrite : Txn → Bool
  | .readHoldingRegisters _ _ => false
  | _ => true

/-- Modelled from the spec: the behaviour of the bus and of the sensor behind
it, which the sources only reach through the `ModbusMaster2` library (not part
of the sources). Spec section 6: the transport exposes
`read(address, count) -> (ok, words)`, `write_one(address, value) -> ok` and
`write_many(address, values) -> ok`. A behaviour is an arbitrary function of
the transactions issued so far and of the current one: `status` is the
`uint8_t` result code, `response` the content of the response buffer
afterwards. -/
structure Bus where
  status : List Txn → Txn → Nat
  response : List Txn → Txn → Nat → Nat

/-- Modelled from the spec: the result code of an acknowledged transaction
(spec section 4.3, "true only on confirmed acknowledgement"), which the sources
name `node.ku8MBSuccess`; the library that defines it is not part of the
sources. -/
def ku8MBSuccess : Nat := 0

/-- Modelled from the spec: the `ModbusMaster2 node` member (the library is
not part of the sources): its transmit and response buffers, and a record
`log` of every transaction it has issued, oldest first. -/
structure ModbusMaster2 where
  log : List Txn
  transmitBuffer : Nat → Nat
  responseBuffer : Nat → Nat

namespace ModbusMaster2

/-- Run one transaction: ask the bus for its result code, record the
transaction, and take over the response buffer the bus leaves behind. -/
def exchange (node : ModbusMaster2) (bus : Bus) (t : Txn) : Nat × ModbusMaster2 :=
  (bus.status node.log t,
    { node with log := node.log ++ [t], responseBuffer := bus.response node.log t })

/-- Library call `node.readHoldingRegisters(addr, qty)`. -/
def readHoldingRegisters (node : ModbusMaster2) (bus : Bus) (addr qty : Nat) :
    Nat × ModbusMaster2 :=
  node.exchange bus (Txn.readHoldingRegisters addr qty)

/-- Library call `node.getResponseBuffer(i)`, a `uint16_t`. -/
def getResponseBuffer (node : ModbusMaster2) (i : Nat) : Nat :=
  node.responseBuffer i % 65536

/-- Library call `node.setTransmitBuffer(i, value)`; no bus traffic. -/
def setTransmitBuffer (node : ModbusMaster2) (i value : Nat) : ModbusMaster2 :=
  { node with transmitBuffer := Function.update node.transmitBuffer i (value % 65536) }

/-- Library call `node.writeSingleRegister(addr, value)`. -/
def writeSingleRegister (node : ModbusMaster2) (bus : Bus) (addr value : Nat) :
    Nat × ModbusMaster2 :=
  node.exchange bus (Txn.writeSingleRegister addr value)

/-- Library call `node.writeMultipleRegisters(addr, qty)`: sends the first
`qty` words of the transmit buffer. -/
def writeMultipleRegisters (node : ModbusMaster2) (bus : Bus) (addr qty : Nat) :
    Nat × ModbusMaster2 :=
  node.exchange bus (Txn.writeMultipleRegisters addr qty ((List.range qty).map node.transmitBuffer))

end ModbusMaster2

/-! ## Byte helpers and the scratch unions -/

/-- Arduino `highByte(w)`: `(uint8_t)(w >> 8)`. -/
def highByte (w : Nat) : Nat := (w / 256) % 256

/-- Arduino `lowByte(w)`: `(uint8_t)(w & 0xff)`. -/
def lowByte (w : Nat) : Nat := w % 256

/-- The union `float_temp { float f; uint8_t u8[4]; uint16_t u16[2]; }`, held
as its four bytes `u8[0]` to `u8[3]`. -/
structure float_temp where
  u8_0 : Nat
  u8_1 : Nat
  u8_2 : Nat
  u8_3 : Nat
  deriving DecidableEq, Repr

namespace float_temp

/-- Read member `f`: the 32-bit pattern of the float (little-endian). -/
def f (t : float_temp) : Nat :=
  t.u8_0 + t.u8_1 * 2 ^ 8 + t.u8_2 * 2 ^ 16 + t.u8_3 * 2 ^ 24

/-- Assign member `f` the float with 32-bit pattern `p`. -/
def set_f (_t : float_temp) (p : Nat) : float_temp :=
  { u8_0 := p % 256, u8_1 := (p / 2 ^ 8) % 256, u8_2 := (p / 2 ^ 16) % 256,
    u8_3 := (p / 2 ^ 24) % 256 }

/-- Read member `u16[i]`. -/
def u16 (t : float_temp) (i : Nat) : Nat :=
  match i with
  | 0 => t.u8_0 + t.u8_1 * 2 ^ 8
  | _ => t.u8_2 + t.u8_3 * 2 ^ 8

/-- Assign member `u8[i]` the byte `b`. -/
def set_u8 (t : float_temp) (i b : Nat) : float_temp :=
  match i with
  | 0 => { t with u8_0 := b % 256 }
  | 1 => { t with u8_1 := b % 256 }
  | 2 => { t with u8_2 := b % 256 }
  | _ => { t with u8_3 := b % 256 }

end float_temp

/-- The 32-bit pattern of the literal `5.0f`. -/
def FLOAT_5_0 : Nat := 0x40A00000

/-- The rational value of a finite IEEE-754 binary32 pattern (`none` for
infinities and NaN): sign bit 31, biased exponent bits 30 to 23, fraction bits
22 to 0. -/
def binary32_value (p : Nat) : Option ℚ :=
  let sign : ℚ := if p / 2 ^ 31 % 2 = 1 then -1 else 1
  let e : Nat := p / 2 ^ 23 % 256
  let frac : Nat := p % 2 ^ 23
  if e = 255 then none
  else if e = 0 then some (sign * (frac : ℚ) / (2 : ℚ) ^ 149)
  else some (sign * ((2 ^ 23 + frac : Nat) : ℚ) * (2 : ℚ) ^ e / (2 : ℚ) ^ 150)

/-! ## The driver object -/

/-- The data members of `class XYTEKFlow` (the serial port handle is hardware
and is left out). Floats are 32-bit patterns; the union `word_temp` has the
same four bytes as `float_temp` and is never used by the driver. -/
structure XYTEKFlow where
  flow_rate : Nat
  flow_volume_net : Nat
  flow_volume_pos : Nat
  flow_volume_neg : Nat
  temperature : Nat
  search_device_response : Nat
  system_status : Nat
  id : Nat
  node : ModbusMaster2
  received_ok : Bool
  received_length : Nat
  received_data : List Nat
  millis_now : Nat
  read_data_stage : Nat
  ftemp : float_temp
  wtemp : float_temp

namespace XYTEKFlow

/-- Read `received_data[i]`. -/
def rd (s : XYTEKFlow) (i : Nat) : Nat := s.received_data.getD i 0

/-- Source lines 53 to 58, `write_register`. -/
def write_register (s : XYTEKFlow) (bus : Bus) (data_address value : Nat) : Bool × XYTEKFlow :=
  let r := s.node.writeSingleRegister bus data_address value
  (r.1 == ku8MBSuccess, { s with node := r.2 })

/-- Source lines 61 to 68, `write_registers`: copy `length` words into the
transmit buffer, then one multiple-register write. -/
def write_registers (s : XYTEKFlow) (bus : Bus) (data_address : Nat) (data : List Nat)
    (length : Nat) : Bool × XYTEKFlow :=
  let node1 := (List.range length).foldl
    (fun (n : ModbusMaster2) i => n.setTransmitBuffer i (data.getD i 0)) s.node
  let r := node1.writeMultipleRegisters bus data_address length
  (r.1 == ku8MBSuccess, { s with node := r.2 })

/-- Source lines 71 to 83, `read_registers`: one read transaction; on success
the first `request_words` response words are copied to `received_data`. (The
C++ loop counter is a `uint8_t` and the buffer has 40 entries; every caller
passes a count of 1 or 2.) -/
def read_registers (s : XYTEKFlow) (bus : Bus) (data_address request_words : Nat) :
    Bool × XYTEKFlow :=
  let r := s.node.readHoldingRegisters bus data_address request_words
  let s1 := { s with node := r.2, received_ok := (r.1 == ku8MBSuccess) }
  if s1.received_ok then
    let s2 := (List.range request_words).foldl
      (fun (st : XYTEKFlow) i =>
        { st with received_data := st.received_data.set i (st.node.getResponseBuffer i) }) s1
    let s3 := { s2 with received_length := request_words % 256 }
    (s3.received_ok, s3)
  else
    (s1.received_ok, s1)

/-- Source lines 85 to 93, `received_data_to_float`: returns the float (as its
pattern) and the object with the scratch union overwritten. -/
def received_data_to_float (s : XYTEKFlow) (offset : Nat) : Nat × XYTEKFlow :=
  let t1 := s.ftemp.set_u8 1 (highByte (s.rd (0 + offset)))
  let t2 := t1.set_u8 0 (lowByte (s.rd (0 + offset)))
  let t3 := t2.set_u8 3 (highByte (s.rd (1 + offset)))
  let t4 := t3.set_u8 2 (lowByte (s.rd (1 + offset)))
  (t4.f, { s with ftemp := t4 })

/-- Source lines 96 to 103, `search_device`. The C++ expression
`received_data[0] + received_data[1] << 16` parses as
`(received_data[0] + received_data[1]) << 16`. -/
def search_device (s : XYTEKFlow) (bus : Bus) : Bool × XYTEKFlow :=
  let s1 := (s.read_registers bus XYTEKFLOW_CMD_SEARCH_DEVICE.1 XYTEKFLOW_CMD_SEARCH_DEVICE.2).2
  let s2 := if s1.received_ok then
      { s1 with search_device_response := ((s1.rd 0 + s1.rd 1) * 2 ^ 16) % 2 ^ 32 }
    else s1
  (s2.received_ok, s2)

/-- Source lines 105 to 111, `read_status`. -/
def read_status (s : XYTEKFlow) (bus : Bus) : Bool × XYTEKFlow :=
  let s1 := (s.read_registers bus XYTEKFLOW_CMD_SYSTEM_STAT.1 XYTEKFLOW_CMD_SYSTEM_STAT.2).2
  let s2 := if s1.received_ok then { s1 with system_status := s1.rd 0 } else s1
  (s2.received_ok, s2)

/-- Source lines 114 to 121, `read_flowrate`. -/
def read_flowrate (s : XYTEKFlow) (bus : Bus) : Bool × XYTEKFlow :=
  let s1 := (s.read_registers bus XYTEKFLOW_CMD_USR_REQ_FLOW_RATE_AVG1S.1
    XYTEKFLOW_CMD_USR_REQ_FLOW_RATE_AVG1S.2).2
  let s2 := if s1.received_ok then
      let r := s1.received_data_to_float 0
      { r.2 with flow_rate := r.1 }
    else s1
  (s2.received_ok, s2)

/-- Source lines 122 to 128, `read_volume_net`. -/
def read_volume_net (s : XYTEKFlow) (bus : Bus) : Bool × XYTEKFlow :=
  let s1 := (s.read_registers bus XYTEKFLOW_CMD_USR_REQ_VOL.1 XYTEKFLOW_CMD_USR_REQ_VOL.2).2
  let s2 := if s1.received_ok then
      let r := s1.received_data_to_float 0
      { r.2 with flow_volume_net := r.1 }
    else s1
  (s2.received_ok, s2)

/-- Source lines 129 to 135, `read_volume_pos`. -/
def read_volume_pos (s : XYTEKFlow) (bus : Bus) : Bool × XYTEKFlow :=
  let s1 := (s.read_registers bus XYTEKFLOW_CMD_USR_REQ_POS_VOL.1
    XYTEKFLOW_CMD_USR_REQ_POS_VOL.2).2
  let s2 := if s1.received_ok then
      let r := s1.received_data_to_float 0
      { r.2 with flow_volume_pos := r.1 }
    else s1
  (s2.received_ok, s2)

/-- Source lines 136 to 142, `read_volume_neg`. -/
def read_volume_neg (s : XYTEKFlow) (bus : Bus) : Bool × XYTEKFlow :=
  let s1 := (s.read_registers bus XYTEKFLOW_CMD_USR_REQ_NEG_VOL.1
    XYTEKFLOW_CMD_USR_REQ_NEG_VOL.2).2
  let s2 := if s1.received_ok then
      let r := s1.received_data_to_float 0
      { r.2 with flow_volume_neg := r.1 }
    else s1
  (s2.received_ok, s2)

/-- Source lines 145 to 148, `reset_volume`. -/
def reset_volume (s : XYTEKFlow) (bus : Bus) : Bool × XYTEKFlow :=
  s.write_register bus XYTEKFLOW_CMD_RESET_VOLUME.1 1

/-- Source lines 150 to 163, `zero_calibration`. -/
def zero_calibration (s : XYTEKFlow) (bus : Bus) : Bool × XYTEKFlow :=
  let s1 := { s with ftemp := s.ftemp.set_f FLOAT_5_0 }
  let u16_data := [s1.ftemp.u16 0, s1.ftemp.u16 1]
  let r := s1.write_registers bus XYTEKFLOW_CMD_ZERO_CAL_TIME.1 u16_data 2
  if r.1 then
    r.2.write_register bus XYTEKFLOW_CMD_ZERO_CAL_START.1 1
  else r

/-- Source lines 165 to 174, `enable_temperature`. -/
def enable_temperature (s : XYTEKFlow) (bus : Bus) : Bool × XYTEKFlow :=
  let r := s.write_register bus XYTEKFLOW_CMD_TEMP_PD.1 1
  if r.1 then
    r.2.write_register bus XYTEKFLOW_CMD_TEMP_EN.1 1
  else r

/-- Source lines 176 to 182, `read_temperature`. -/
def read_temperature (s : XYTEKFlow) (bus : Bus) : Bool × XYTEKFlow :=
  let s1 := (s.read_registers bus XYTEKFLOW_CMD_APP_REQ_TEMP.1 XYTEKFLOW_CMD_APP_REQ_TEMP.2).2
  let s2 := if s1.received_ok then { s1 with temperature := s1.rd 0 } else s1
  (s2.received_ok, s2)

/-- Source lines 192 to 205, `loop`: the `switch` has the cases 0 and 1 and no
default. -/
def loop (s : XYTEKFlow) (bus : Bus) (_millis_now : Nat) : XYTEKFlow :=
  let s1 := { s with millis_now := _millis_now % 2 ^ 32 }
  let s2 := match s1.read_data_stage with
    | 0 => (s1.read_flowrate bus).2
    | 1 => (s1.read_volume_net bus).2
    | _ => s1
  { s2 with read_data_stage := (s2.read_data_stage + 1) % 2 }

/-- Successive invocations of `loop`, one per time value of `ticks`. -/
def loops (s : XYTEKFlow) (bus : Bus) (ticks : List Nat) : XYTEKFlow :=
  ticks.foldl (fun st t => st.loop bus t) s

end XYTEKFlow

/-! ## The read operations as a family -/

/-- The seven public read operations of the driver. -/
inductive ReadOp where
  | read_flowrate
  | read_volume_net
  | read_volume_pos
  | read_volume_neg
  | read_status
  | read_temperature
  | search_device
  deriving DecidableEq, Repr

namespace ReadOp

/-- The member function an operation name stands for. -/
def run : ReadOp → XYTEKFlow → Bus → Bool × XYTEKFlow
  | read_flowrate => XYTEKFlow.read_flowrate
  | read_volume_net => XYTEKFlow.read_volume_net
  | read_volume_pos => XYTEKFlow.read_volume_pos
  | read_volume_neg => XYTEKFlow.read_volume_neg
  | read_status => XYTEKFlow.read_status
  | read_temperature => XYTEKFlow.read_temperature
  | search_device => XYTEKFlow.search_device

/-- The row of the command table each member function hands to
`read_registers` (source lines 99, 107, 117, 124, 131, 138 and 178). -/
def cmd : ReadOp → Command
  | read_flowrate => XYTEKFLOW_CMD_USR_REQ_FLOW_RATE_AVG1S
  | read_volume_net => XYTEKFLOW_CMD_USR_REQ_VOL
  | read_volume_pos => XYTEKFLOW_CMD_USR_REQ_POS_VOL
  | read_volume_neg => XYTEKFLOW_CMD_USR_REQ_NEG_VOL
  | read_status => XYTEKFLOW_CMD_SYSTEM_STAT
  | read_temperature => XYTEKFLOW_CMD_APP_REQ_TEMP
  | search_device => XYTEKFLOW_CMD_SEARCH_DEVICE

/-- The read transaction of an operation. -/
def txn (op : ReadOp) : Txn := Txn.readHoldingRegisters op.cmd.1 op.cmd.2

end ReadOp

/-- The seven cached readings of the driver, in declaration order. -/
def XYTEKFlow.cached (s : XYTEKFlow) : List Nat :=
  [s.flow_rate, s.flow_volume_net, s.flow_volume_pos, s.flow_volume_neg, s.temperature,
    s.search_device_response, s.system_status]

/-! ## Concrete objects and buses used to exercise the model -/

/-- A driver object with distinct cached readings, an empty transaction record
and a cleared receive buffer. -/
def sampleDriver : XYTEKFlow :=
  { flow_rate := 0x3F800000, flow_volume_net := 0x40000000, flow_volume_pos := 0x40400000,
    flow_volume_neg := 0x40800000, temperature := 251, search_device_response := 6,
    system_status := 122, id := 1,
    node := { log := [], transmitBuffer := fun _ => 0, responseBuffer := fun _ => 0 },
    received_ok := false, received_length := 0, received_data := List.replicate 40 0,
    millis_now := 0, read_data_stage := 0,
    ftemp := { u8_0 := 0, u8_1 := 0, u8_2 := 0, u8_3 := 0 },
    wtemp := { u8_0 := 0, u8_1 := 0, u8_2 := 0, u8_3 := 0 } }

/-- A bus on which every transaction times out (result code 0xE2). -/
def timeoutBus : Bus :=
  { status := fun _ _ => 0xE2, response := fun _ _ _ => 0 }

/-- A bus that acknowledges everything and answers every read with the words
`0x4B58, 0x594A`. -/
def xykjBus : Bus :=
  { status := fun _ _ => 0, response := fun _ _ i => if i = 0 then 0x4B58 else 0x594A }

namespace XYTEKFlow

/-- Copying response words into the receive buffer touches `received_data`
only. -/
theorem fill_eq (l : List Nat) (s : XYTEKFlow) :
    l.foldl (fun (st : XYTEKFlow) i =>
        { st with received_data := st.received_data.set i (st.node.getResponseBuffer i) }) s
      = { s with received_data :=
            l.foldl (fun rd i => rd.set i (s.node.getResponseBuffer i)) s.received_data } := by
  induction l generalizing s with
  | nil => rfl
  | cons a l ih => simp only [List.foldl_cons]; rw [ih]

/-- A read transaction that is not acknowledged only records the transaction
and clears `received_ok`. -/
theorem read_registers_of_fail (s : XYTEKFlow) (bus : Bus) (a n : Nat)
    (h : bus.status s.node.log (Txn.readHoldingRegisters a n) ≠ ku8MBSuccess) :
    s.read_registers bus a n
      = (false, { s with node := (s.node.readHoldingRegisters bus a n).2, received_ok := false }) := by
  simp [read_registers, ModbusMaster2.readHoldingRegisters, ModbusMaster2.exchange, h]

/-- An acknowledged read transaction copies the first `n` response words. -/
theorem read_registers_of_ok (s : XYTEKFlow) (bus : Bus) (a n : Nat)
    (h : bus.status s.node.log (Txn.readHoldingRegisters a n) = ku8MBSuccess) :
    s.read_registers bus a n
      = (true, { s with
          node := (s.node.readHoldingRegisters bus a n).2,
          received_ok := true,
          received_data := (List.range n).foldl
            (fun rd i => rd.set i ((s.node.readHoldingRegisters bus a n).2.getResponseBuffer i))
            s.received_data,
          received_length := n % 256 }) := by
  simp [read_registers, ModbusMaster2.readHoldingRegisters, ModbusMaster2.exchange, h, fill_eq]

end XYTEKFlow

namespace XYTEKFlow

/-- The response words of an operation's read transaction, as
`getResponseBuffer` returns them. -/
theorem getResponseBuffer_after_read (s : XYTEKFlow) (bus : Bus) (a n i : Nat) :
    (s.node.readHoldingRegisters bus a n).2.getResponseBuffer i
      = bus.response s.node.log (Txn.readHoldingRegisters a n) i % 65536 := rfl

/-- The decoder assembles the two words at `offset` and `offset + 1`, low word
first, whatever the scratch union held before. -/
theorem received_data_to_float_eq (s : XYTEKFlow) (offset : Nat) :
    (s.received_data_to_float offset).1
      = s.rd offset % 65536 + s.rd (offset + 1) % 65536 * 65536 := by
  simp only [received_data_to_float, float_temp.set_u8, float_temp.f, highByte, lowByte,
    Nat.zero_add, Nat.add_comm 1 offset]
  omega

/-- The decoder changes nothing but the scratch union, whose four bytes become
word 0 low, word 0 high, word 1 low, word 1 high. -/
theorem received_data_to_float_snd (s : XYTEKFlow) (offset : Nat) :
    (s.received_data_to_float offset).2
      = { s with ftemp :=
          { u8_0 := lowByte (s.rd offset) % 256, u8_1 := highByte (s.rd offset) % 256,
            u8_2 := lowByte (s.rd (offset + 1)) % 256,
            u8_3 := highByte (s.rd (offset + 1)) % 256 } } := by
  simp only [received_data_to_float, float_temp.set_u8, Nat.zero_add, Nat.add_comm 1 offset]

/-- A receive buffer of 40 words starts with two words. -/
theorem received_data_cons_cons (s : XYTEKFlow)
    (hlen : s.received_data.length = RECEIVED_DATA_SIZE) :
    ∃ x y l, s.received_data = x :: y :: l := by
  match h : s.received_data with
  | [] => rw [h] at hlen; simp [RECEIVED_DATA_SIZE] at hlen
  | [_] => rw [h] at hlen; simp [RECEIVED_DATA_SIZE] at hlen
  | x :: y :: l => exact ⟨x, y, l, rfl⟩

/-- C1. For every driver object and each of the seven read operations: if the
read transaction of the operation is not acknowledged by the transport, the
operation returns false and each of the seven cached readings keeps the value
it had before the call. -/
theorem failed_read_keeps_cache (op : ReadOp) (s : XYTEKFlow) (bus : Bus)
    (hfail : bus.status s.node.log op.txn ≠ ku8MBSuccess) :
    (op.run s bus).1 = false ∧
      (op.run s bus).2.flow_rate = s.flow_rate ∧
      (op.run s bus).2.flow_volume_net = s.flow_volume_net ∧
      (op.run s bus).2.flow_volume_pos = s.flow_volume_pos ∧
      (op.run s bus).2.flow_volume_neg = s.flow_volume_neg ∧
      (op.run s bus).2.temperature = s.temperature ∧
      (op.run s bus).2.search_device_response = s.search_device_response ∧
      (op.run s bus).2.system_status = s.system_status := by
  cases op <;> simp only [ReadOp.txn, ReadOp.cmd] at hfail <;>
    simp [ReadOp.run, read_flowrate, read_volume_net, read_volume_pos, read_volume_neg,
      read_status, read_temperature, search_device, read_registers_of_fail _ _ _ _ hfail]

/-- The cached readings after an acknowledged read, for every driver object
with its 40-word receive buffer and each of the seven read operations, with
response words `w`: the operation returns true; `read_status` stores `w 0` in
`system_status`, `read_temperature` stores `w 0` in `temperature`,
`read_flowrate`, `read_volume_net`, `read_volume_pos`, `read_volume_neg` store
the float with pattern `w 0 + w 1 * 2 ^ 16` in their own field, and
`search_device` stores `((w 0 + w 1) * 2 ^ 16) % 2 ^ 32` in
`search_device_response`; every other cached reading is unchanged. -/
theorem successful_read_decodes (op : ReadOp) (s : XYTEKFlow) (bus : Bus) :
    s.received_data.length = RECEIVED_DATA_SIZE →
    bus.status s.node.log op.txn = ku8MBSuccess →
    (op.run s bus).1 = true ∧
      (op.run s bus).2.cached =
        (match op with
        | .read_flowrate =>
            [bus.response s.node.log op.txn 0 % 65536
                + bus.response s.node.log op.txn 1 % 65536 * 2 ^ 16,
              s.flow_volume_net, s.flow_volume_pos, s.flow_volume_neg, s.temperature,
              s.search_device_response, s.system_status]
        | .read_volume_net =>
            [s.flow_rate,
              bus.response s.node.log op.txn 0 % 65536
                + bus.response s.node.log op.txn 1 % 65536 * 2 ^ 16,
              s.flow_volume_pos, s.flow_volume_neg, s.temperature,
              s.search_device_response, s.system_status]
        | .read_volume_pos =>
            [s.flow_rate, s.flow_volume_net,
              bus.response s.node.log op.txn 0 % 65536
                + bus.response s.node.log op.txn 1 % 65536 * 2 ^ 16,
              s.flow_volume_neg, s.temperature, s.search_device_response, s.system_status]
        | .read_volume_neg =>
            [s.flow_rate, s.flow_volume_net, s.flow_volume_pos,
              bus.response s.node.log op.txn 0 % 65536
                + bus.response s.node.log op.txn 1 % 65536 * 2 ^ 16,
              s.temperature, s.search_device_response, s.system_status]
        | .read_status =>
            [s.flow_rate, s.flow_volume_net, s.flow_volume_pos, s.flow_volume_neg,
              s.temperature, s.search_device_response,
              bus.response s.node.log op.txn 0 % 65536]
        | .read_temperature =>
            [s.flow_rate, s.flow_volume_net, s.flow_volume_pos, s.flow_volume_neg,
              bus.response s.node.log op.txn 0 % 65536,
              s.search_device_response, s.system_status]
        | .search_device =>
            [s.flow_rate, s.flow_volume_net, s.flow_volume_pos, s.flow_volume_neg,
              s.temperature,
              ((bus.response s.node.log op.txn 0 % 65536
                  + bus.response s.node.log op.txn 1 % 65536) * 2 ^ 16) % 2 ^ 32,
              s.system_status]) := by
  intro hlen hok
  obtain ⟨x, y, l, hcons⟩ := s.received_data_cons_cons hlen
  have r1 : List.range 1 = [0] := rfl
  have r2 : List.range 2 = [0, 1] := rfl
  cases op <;>
    simp only [ReadOp.run, ReadOp.txn, ReadOp.cmd, read_flowrate, read_volume_net,
      read_volume_pos, read_volume_neg, read_status, read_temperature, search_device] at hok ⊢ <;>
    rw [read_registers_of_ok _ _ _ _ hok] <;>
    simp [cached, received_data_to_float_eq, getResponseBuffer_after_read,
      received_data_to_float_snd, rd, XYTEKFLOW_CMD_USR_REQ_FLOW_RATE_AVG1S,
      XYTEKFLOW_CMD_USR_REQ_VOL, XYTEKFLOW_CMD_USR_REQ_POS_VOL, XYTEKFLOW_CMD_USR_REQ_NEG_VOL,
      XYTEKFLOW_CMD_SYSTEM_STAT, XYTEKFLOW_CMD_APP_REQ_TEMP, XYTEKFLOW_CMD_SEARCH_DEVICE,
      r1, r2, hcons]

/-- C5. Float round trip on bit patterns: for every 32-bit pattern `v`, storing
`v` in the scratch union, taking `u16[0]` and `u16[1]` as the two register
words (the encoding `zero_calibration` uses) and decoding these two words with
`received_data_to_float` at offset 0 gives back exactly the pattern `v`. -/
theorem float_roundtrip (v : Nat) (hv : v < 2 ^ 32) (s : XYTEKFlow) (tail : List Nat) :
    ({ s with received_data :=
          (s.ftemp.set_f v).u16 0 :: (s.ftemp.set_f v).u16 1 :: tail
        }.received_data_to_float 0).1 = v := by
  rw [received_data_to_float_eq]
  simp only [rd, float_temp.set_f, float_temp.u16, List.getD_cons_zero, List.getD_cons_succ,
    Nat.zero_add]
  omega

/-- C6. For every 40-word receive buffer of 16-bit words, every offset with
`offset + 1` inside the buffer and every previous content `ft` of the scratch
union, `received_data_to_float offset` returns the pattern with
`received_data[offset]` as its low 16 bits and `received_data[offset + 1]` as
its high 16 bits, and leaves the union bytes `u8[0..3]` equal to word 0 low,
word 0 high, word 1 low, word 1 high; in particular the words
`0x0000, 0x40A0` at offset 0 decode to `0x40A00000`, the pattern of 5.0. -/
theorem received_data_to_float_assembles (s : XYTEKFlow) (offset : Nat) (ft : float_temp)
    (tail : List Nat)
    (hoff : offset + 1 < s.received_data.length)
    (hlen : s.received_data.length = RECEIVED_DATA_SIZE)
    (hw : ∀ w ∈ s.received_data, w < 65536) :
    ({ s with ftemp := ft }.received_data_to_float offset).1
        = s.received_data[offset] + s.received_data[offset + 1] * 2 ^ 16 ∧
      ({ s with ftemp := ft }.received_data_to_float offset).1 % 2 ^ 16
        = s.received_data[offset] ∧
      ({ s with ftemp := ft }.received_data_to_float offset).1 / 2 ^ 16
        = s.received_data[offset + 1] ∧
      ({ s with ftemp := ft }.received_data_to_float offset).2.ftemp
        = { u8_0 := lowByte s.received_data[offset], u8_1 := highByte s.received_data[offset],
            u8_2 := lowByte s.received_data[offset + 1],
            u8_3 := highByte s.received_data[offset + 1] } ∧
      ({ s with received_data := 0x0000 :: 0x40A0 :: tail, ftemp := ft
          }.received_data_to_float 0).1 = 0x40A00000 ∧
      binary32_value 0x40A00000 = some 5 := by
  have h0 : s.received_data[offset] < 65536 := hw _ (List.getElem_mem _)
  have h1 : s.received_data[offset + 1] < 65536 := hw _ (List.getElem_mem _)
  have hoff0 : offset < s.received_data.length := by omega
  have e0 : s.received_data.getD offset 0 = s.received_data[offset] := by
    simp [List.getD_eq_getElem?_getD, List.getElem?_eq_getElem hoff0]
  have e1 : s.received_data.getD (offset + 1) 0 = s.received_data[offset + 1] := by
    simp [List.getD_eq_getElem?_getD, List.getElem?_eq_getElem hoff]
  refine ⟨?_, ?_, ?_, ?_, ?_, ?_⟩
  · rw [received_data_to_float_eq]; simp only [rd, e0, e1]; omega
  · rw [received_data_to_float_eq]; simp only [rd, e0, e1]; omega
  · rw [received_data_to_float_eq]; simp only [rd, e0, e1]; omega
  · rw [received_data_to_float_snd]
    simp only [rd, e0, e1, lowByte, highByte, Nat.mod_mod]
  · rw [received_data_to_float_eq]
    simp only [rd, List.getD_cons_zero, List.getD_cons_succ, Nat.zero_add]
  · simp [binary32_value]; norm_num

/-- On an acknowledged identity read `search_device` stores the sum of the two
response words shifted left by 16 bits, truncated to 32 bits. -/
theorem search_device_stores (s : XYTEKFlow) (bus : Bus)
    (hlen : s.received_data.length = RECEIVED_DATA_SIZE)
    (hok : bus.status s.node.log ReadOp.search_device.txn = ku8MBSuccess) :
    (s.search_device bus).2.search_device_response
      = ((bus.response s.node.log ReadOp.search_device.txn 0 % 65536
          + bus.response s.node.log ReadOp.search_device.txn 1 % 65536) * 2 ^ 16) % 2 ^ 32 := by
  obtain ⟨x, y, l, hcons⟩ := s.received_data_cons_cons hlen
  have r2 : List.range 2 = [0, 1] := rfl
  simp only [ReadOp.txn, ReadOp.cmd, search_device] at hok ⊢
  rw [read_registers_of_ok _ _ _ _ hok]
  simp [getResponseBuffer_after_read, rd, XYTEKFLOW_CMD_SEARCH_DEVICE, r2, hcons]

/-- C7, evaluated on the device reply `0x4B58, 0x594A`: the identity read
succeeds and `search_device` stores `0xA4A20000`, which is neither
`0x4B58 + 0x594A * 2 ^ 16` nor the tag `0x4a4b5958` named in the source
comment. -/
theorem search_device_on_xykj_reply :
    (sampleDriver.search_device xykjBus).1 = true ∧
      (sampleDriver.search_device xykjBus).2.search_device_response = 0xA4A20000 ∧
      (sampleDriver.search_device xykjBus).2.search_device_response
        ≠ 0x4B58 + 0x594A * 2 ^ 16 ∧
      (sampleDriver.search_device xykjBus).2.search_device_response ≠ 0x4a4b5958 := by
  decide

/-- C2. For every driver object and every transport behaviour, with `t1` and
`t2` the first and second write transaction of the sequence:
`zero_calibration` and `enable_temperature` issue `t1` alone when `t1` is not
acknowledged, and `t1` followed by `t2` when it is; nothing else goes on the
bus; the result is true exactly when both writes are acknowledged (so it is
false when the first fails, and it is the acknowledgement of the second when
the first succeeds). -/
theorem sequenced_writes_stop_after_failure (s : XYTEKFlow) (bus : Bus) :
    ((s.zero_calibration bus).2.node.log
        = s.node.log ++
          (if bus.status s.node.log
                (Txn.writeMultipleRegisters XYTEKFLOW_CMD_ZERO_CAL_TIME.1 2 [0x0000, 0x40A0])
              = ku8MBSuccess
            then [Txn.writeMultipleRegisters XYTEKFLOW_CMD_ZERO_CAL_TIME.1 2 [0x0000, 0x40A0],
                  Txn.writeSingleRegister XYTEKFLOW_CMD_ZERO_CAL_START.1 1]
            else [Txn.writeMultipleRegisters XYTEKFLOW_CMD_ZERO_CAL_TIME.1 2 [0x0000, 0x40A0]]) ∧
      (((s.zero_calibration bus).2.node.log.drop s.node.log.length).countP Txn.isWrite
        = if bus.status s.node.log
              (Txn.writeMultipleRegisters XYTEKFLOW_CMD_ZERO_CAL_TIME.1 2 [0x0000, 0x40A0])
            = ku8MBSuccess then 2 else 1) ∧
      ((s.zero_calibration bus).1 = true ↔
        bus.status s.node.log
            (Txn.writeMultipleRegisters XYTEKFLOW_CMD_ZERO_CAL_TIME.1 2 [0x0000, 0x40A0])
          = ku8MBSuccess ∧
        bus.status
            (s.node.log ++
              [Txn.writeMultipleRegisters XYTEKFLOW_CMD_ZERO_CAL_TIME.1 2 [0x0000, 0x40A0]])
            (Txn.writeSingleRegister XYTEKFLOW_CMD_ZERO_CAL_START.1 1)
          = ku8MBSuccess)) ∧
    ((s.enable_temperature bus).2.node.log
        = s.node.log ++
          (if bus.status s.node.log (Txn.writeSingleRegister XYTEKFLOW_CMD_TEMP_PD.1 1)
              = ku8MBSuccess
            then [Txn.writeSingleRegister XYTEKFLOW_CMD_TEMP_PD.1 1,
                  Txn.writeSingleRegister XYTEKFLOW_CMD_TEMP_EN.1 1]
            else [Txn.writeSingleRegister XYTEKFLOW_CMD_TEMP_PD.1 1]) ∧
      (((s.enable_temperature bus).2.node.log.drop s.node.log.length).countP Txn.isWrite
        = if bus.status s.node.log (Txn.writeSingleRegister XYTEKFLOW_CMD_TEMP_PD.1 1)
            = ku8MBSuccess then 2 else 1) ∧
      ((s.enable_temperature bus).1 = true ↔
        bus.status s.node.log (Txn.writeSingleRegister XYTEKFLOW_CMD_TEMP_PD.1 1)
          = ku8MBSuccess ∧
        bus.status (s.node.log ++ [Txn.writeSingleRegister XYTEKFLOW_CMD_TEMP_PD.1 1])
            (Txn.writeSingleRegister XYTEKFLOW_CMD_TEMP_EN.1 1)
          = ku8MBSuccess)) := by
  have r2 : List.range 2 = [0, 1] := rfl
  constructor
  · by_cases h : bus.status s.node.log
        (Txn.writeMultipleRegisters XYTEKFLOW_CMD_ZERO_CAL_TIME.1 2 [0x0000, 0x40A0])
        = ku8MBSuccess
    all_goals
      simp [zero_calibration, write_registers, write_register,
        ModbusMaster2.writeMultipleRegisters, ModbusMaster2.writeSingleRegister,
        ModbusMaster2.exchange, ModbusMaster2.setTransmitBuffer, r2, float_temp.set_f,
        float_temp.u16, FLOAT_5_0, Function.update, h, Txn.isWrite]
  · by_cases h : bus.status s.node.log (Txn.writeSingleRegister XYTEKFLOW_CMD_TEMP_PD.1 1)
        = ku8MBSuccess
    all_goals
      simp [enable_temperature, write_register, ModbusMaster2.writeSingleRegister,
        ModbusMaster2.exchange, h, Txn.isWrite]

/-- C10. For every driver object, the first transaction `zero_calibration`
issues is a multiple-register write of two words to address `0x2A6` with the
payload `0x0000, 0x40A0` in that order, which is the pair `u16[0], u16[1]` of
the union holding the float 5.0; a second transaction exists exactly when that
write is acknowledged, and it is then the single-register write of the value 1
to address `0x401`. -/
theorem zero_calibration_transactions (s : XYTEKFlow) (bus : Bus) :
    ((s.zero_calibration bus).2.node.log.drop s.node.log.length).head?
        = some (Txn.writeMultipleRegisters 0x2A6 2 [0x0000, 0x40A0]) ∧
      ((s.zero_calibration bus).2.node.log.drop s.node.log.length)[1]?
        = (if bus.status s.node.log (Txn.writeMultipleRegisters 0x2A6 2 [0x0000, 0x40A0])
              = ku8MBSuccess
            then some (Txn.writeSingleRegister 0x401 1) else none) ∧
      [(s.ftemp.set_f FLOAT_5_0).u16 0, (s.ftemp.set_f FLOAT_5_0).u16 1] = [0x0000, 0x40A0] ∧
      binary32_value FLOAT_5_0 = some 5 := by
  have r2 : List.range 2 = [0, 1] := rfl
  refine ⟨?_, ?_, ?_, ?_⟩
  · by_cases h : bus.status s.node.log (Txn.writeMultipleRegisters 0x2A6 2 [0x0000, 0x40A0])
        = ku8MBSuccess
    all_goals
      simp [zero_calibration, write_registers, write_register,
        ModbusMaster2.writeMultipleRegisters, ModbusMaster2.writeSingleRegister,
        ModbusMaster2.exchange, ModbusMaster2.setTransmitBuffer, r2, float_temp.set_f,
        float_temp.u16, FLOAT_5_0, Function.update, h, XYTEKFLOW_CMD_ZERO_CAL_TIME,
        XYTEKFLOW_CMD_ZERO_CAL_START]
  · by_cases h : bus.status s.node.log (Txn.writeMultipleRegisters 0x2A6 2 [0x0000, 0x40A0])
        = ku8MBSuccess
    all_goals
      simp [zero_calibration, write_registers, write_register,
        ModbusMaster2.writeMultipleRegisters, ModbusMaster2.writeSingleRegister,
        ModbusMaster2.exchange, ModbusMaster2.setTransmitBuffer, r2, float_temp.set_f,
        float_temp.u16, FLOAT_5_0, Function.update, h, XYTEKFLOW_CMD_ZERO_CAL_TIME,
        XYTEKFLOW_CMD_ZERO_CAL_START]
  · simp [float_temp.set_f, float_temp.u16, FLOAT_5_0]
  · simp [binary32_value, FLOAT_5_0]; norm_num

/-- Every read operation records exactly its own read transaction and leaves
the poll stage alone, acknowledged or not. -/
theorem run_log (op : ReadOp) (s : XYTEKFlow) (bus : Bus) :
    (op.run s bus).2.node.log = s.node.log ++ [op.txn] ∧
      (op.run s bus).2.read_data_stage = s.read_data_stage := by
  by_cases hok : bus.status s.node.log op.txn = ku8MBSuccess
  · cases op <;>
      simp only [ReadOp.run, ReadOp.txn, ReadOp.cmd, read_flowrate, read_volume_net,
        read_volume_pos, read_volume_neg, read_status, read_temperature, search_device]
        at hok ⊢ <;>
      rw [read_registers_of_ok _ _ _ _ hok] <;>
      simp [received_data_to_float_snd, ModbusMaster2.readHoldingRegisters,
        ModbusMaster2.exchange]
  · cases op <;>
      simp only [ReadOp.run, ReadOp.txn, ReadOp.cmd, read_flowrate, read_volume_net,
        read_volume_pos, read_volume_neg, read_status, read_temperature, search_device]
        at hok ⊢ <;>
      rw [read_registers_of_fail _ _ _ _ hok] <;>
      simp [ModbusMaster2.readHoldingRegisters, ModbusMaster2.exchange]

/-- One `loop` in stage 0 issues the flow-rate read and moves to stage 1. -/
theorem loop_stage_zero (s : XYTEKFlow) (bus : Bus) (t : Nat) (h : s.read_data_stage = 0) :
    (s.loop bus t).node.log = s.node.log ++ [Txn.readHoldingRegisters 0x100A 2] ∧
      (s.loop bus t).read_data_stage = 1 := by
  have key := run_log ReadOp.read_flowrate { s with millis_now := t % 2 ^ 32 } bus
  simp only [ReadOp.run, ReadOp.txn, ReadOp.cmd, XYTEKFLOW_CMD_USR_REQ_FLOW_RATE_AVG1S] at key
  simp only [loop, h]
  simp only [h] at key
  exact ⟨key.1, by rw [key.2]⟩

/-- One `loop` in stage 1 issues the net-volume read and moves to stage 0. -/
theorem loop_stage_one (s : XYTEKFlow) (bus : Bus) (t : Nat) (h : s.read_data_stage = 1) :
    (s.loop bus t).node.log = s.node.log ++ [Txn.readHoldingRegisters 0x1002 2] ∧
      (s.loop bus t).read_data_stage = 0 := by
  have key := run_log ReadOp.read_volume_net { s with millis_now := t % 2 ^ 32 } bus
  simp only [ReadOp.run, ReadOp.txn, ReadOp.cmd, XYTEKFLOW_CMD_USR_REQ_VOL] at key
  simp only [loop, h]
  simp only [h] at key
  exact ⟨key.1, by rw [key.2]⟩

/-- Invocations of `loop` from a stage `k` below 2 issue alternating reads,
the flow-rate read whenever the running stage is 0. -/
theorem loops_from_stage (bus : Bus) (ticks : List Nat) :
    ∀ (s : XYTEKFlow) (k : Nat), s.read_data_stage = k → k < 2 →
      (s.loops bus ticks).node.log
          = s.node.log ++ (List.range ticks.length).map (fun i =>
              if (k + i) % 2 = 0 then Txn.readHoldingRegisters 0x100A 2
              else Txn.readHoldingRegisters 0x1002 2) ∧
        (s.loops bus ticks).read_data_stage = (k + ticks.length) % 2 := by
  induction ticks with
  | nil =>
    intro s k hk hk2
    simp only [loops, List.foldl_nil, List.length_nil, List.range_zero, List.map_nil,
      List.append_nil, Nat.add_zero, true_and]
    omega
  | cons t ts ih =>
    intro s k hk hk2
    have hstep : s.loops bus (t :: ts) = (s.loop bus t).loops bus ts := rfl
    rw [hstep]
    have hk01 : k = 0 ∨ k = 1 := by omega
    rcases hk01 with rfl | rfl
    · obtain ⟨hl, hs⟩ := loop_stage_zero s bus t hk
      obtain ⟨il, is⟩ := ih (s.loop bus t) 1 hs (by decide)
      rw [il, is, hl, List.length_cons, List.range_succ_eq_map, List.map_cons, List.map_map,
        List.append_assoc]
      refine ⟨?_, by omega⟩
      congr 1
      simp only [List.singleton_append, Nat.add_zero, Nat.zero_mod, if_true]
      congr 1
      apply List.map_congr_left
      intro i _
      simp only [Function.comp, Nat.succ_eq_add_one, Nat.zero_add, Nat.add_comm 1 i]
    · obtain ⟨hl, hs⟩ := loop_stage_one s bus t hk
      obtain ⟨il, is⟩ := ih (s.loop bus t) 0 hs (by decide)
      rw [il, is, hl, List.length_cons, List.range_succ_eq_map, List.map_cons, List.map_map,
        List.append_assoc]
      refine ⟨?_, by omega⟩
      congr 1
      simp only [List.singleton_append, Nat.add_zero]
      congr 1
      apply List.map_congr_left
      intro i _
      have e : (0 + i) % 2 = 0 ↔ (1 + (i + 1)) % 2 = 0 := by omega
      simp only [Function.comp, Nat.succ_eq_add_one, e]

/-- In `n` alternating reads that start with the flow-rate read, the flow-rate
read occurs `(n + 1) / 2` times and the net-volume read `n / 2` times. -/
theorem count_alternating (n : Nat) :
    ((List.range n).map (fun i =>
        if i % 2 = 0 then Txn.readHoldingRegisters 0x100A 2
        else Txn.readHoldingRegisters 0x1002 2)).count (Txn.readHoldingRegisters 0x100A 2)
      = (n + 1) / 2 ∧
    ((List.range n).map (fun i =>
        if i % 2 = 0 then Txn.readHoldingRegisters 0x100A 2
        else Txn.readHoldingRegisters 0x1002 2)).count (Txn.readHoldingRegisters 0x1002 2)
      = n / 2 := by
  induction n with
  | zero => simp
  | succ n ih =>
    obtain ⟨ih1, ih2⟩ := ih
    rw [List.range_succ, List.map_append, List.count_append, List.count_append, ih1, ih2]
    by_cases hn : n % 2 = 0
    · simp only [List.map_cons, List.map_nil, hn, if_true]
      refine ⟨?_, ?_⟩
      · rw [List.count_singleton]; simp; omega
      · rw [List.count_singleton]; simp; omega
    · simp only [List.map_cons, List.map_nil, hn, if_false]
      refine ⟨?_, ?_⟩
      · rw [List.count_singleton]; simp; omega
      · rw [List.count_singleton]; simp; omega

/-- C3. Starting with the poll stage equal to 0, for every number `N` of
invocations of `loop` (one per element of `ticks`) and every transport
behaviour: the transactions issued are exactly `N` reads that alternate on
every call, the flow-rate read (address `0x100A`, issued by `read_flowrate`)
first and the net-volume read (address `0x1002`, issued by `read_volume_net`)
second; so the flow-rate read has been attempted `(N + 1) / 2` times, that is
`ceil(N/2)`, the net-volume read `N / 2` times, and the stage is `N % 2`
afterwards. -/
theorem loop_alternates (s : XYTEKFlow) (bus : Bus) (ticks : List Nat)
    (h0 : s.read_data_stage = 0) :
    (s.loops bus ticks).node.log
        = s.node.log ++ (List.range ticks.length).map (fun i =>
            if i % 2 = 0 then Txn.readHoldingRegisters 0x100A 2
            else Txn.readHoldingRegisters 0x1002 2) ∧
      ((s.loops bus ticks).node.log.drop s.node.log.length).length = ticks.length ∧
      ((s.loops bus ticks).node.log.drop s.node.log.length).count
          (Txn.readHoldingRegisters 0x100A 2) = (ticks.length + 1) / 2 ∧
      ((s.loops bus ticks).node.log.drop s.node.log.length).count
          (Txn.readHoldingRegisters 0x1002 2) = ticks.length / 2 ∧
      (s.loops bus ticks).read_data_stage = ticks.length % 2 ∧
      ReadOp.read_flowrate.txn = Txn.readHoldingRegisters 0x100A 2 ∧
      ReadOp.read_volume_net.txn = Txn.readHoldingRegisters 0x1002 2 := by
  obtain ⟨hl, hs⟩ := loops_from_stage bus ticks s 0 h0 (by decide)
  simp only [Nat.zero_add] at hl hs
  obtain ⟨c1, c2⟩ := count_alternating ticks.length
  refine ⟨hl, ?_, ?_, ?_, hs, rfl, rfl⟩
  · rw [hl, List.drop_left]; simp
  · rw [hl, List.drop_left]; exact c1
  · rw [hl, List.drop_left]; exact c2

/-- One `loop` from a stage below 2 issues exactly one read transaction. -/
theorem loop_one_read_of_stage_lt_two (s : XYTEKFlow) (bus : Bus) (t : Nat)
    (h : s.read_data_stage < 2) :
    ∃ a n, (s.loop bus t).node.log = s.node.log ++ [Txn.readHoldingRegisters a n] := by
  have hk01 : s.read_data_stage = 0 ∨ s.read_data_stage = 1 := by omega
  rcases hk01 with h0 | h1
  · exact ⟨_, _, (loop_stage_zero s bus t h0).1⟩
  · exact ⟨_, _, (loop_stage_one s bus t h1).1⟩

/-- C4, evaluated on an object whose stage counter holds 2 (a value the
`uint8_t` member can hold, and the constructor does not assign the member):
for every transport behaviour one invocation of `loop` issues no transaction
at all, and only resets the stage to 1. -/
theorem loop_stage_two_issues_no_read (s : XYTEKFlow) (bus : Bus) (t : Nat) :
    ({ s with read_data_stage := 2 }.loop bus t).node.log = s.node.log ∧
      (({ s with read_data_stage := 2 }.loop bus t).node.log.drop s.node.log.length).countP
          Txn.isRead = 0 ∧
      ({ s with read_data_stage := 2 }.loop bus t).read_data_stage = 1 := by
  simp [loop]

/-- After an acknowledged read the receive buffer holds the response words in
its first `cmd.2` entries and `received_length` is `cmd.2`. -/
theorem run_fills (op : ReadOp) (s : XYTEKFlow) (bus : Bus)
    (hlen : s.received_data.length = RECEIVED_DATA_SIZE)
    (hok : bus.status s.node.log op.txn = ku8MBSuccess) :
    (op.run s bus).2.received_length = op.cmd.2 ∧
      ∀ i, i < op.cmd.2 → (op.run s bus).2.rd i = bus.response s.node.log op.txn i % 65536 := by
  obtain ⟨x, y, l, hcons⟩ := s.received_data_cons_cons hlen
  have r1 : List.range 1 = [0] := rfl
  have r2 : List.range 2 = [0, 1] := rfl
  have two : ∀ i, i < 2 → i = 0 ∨ i = 1 := by omega
  cases op <;>
    simp only [ReadOp.run, ReadOp.txn, ReadOp.cmd, read_flowrate, read_volume_net,
      read_volume_pos, read_volume_neg, read_status, read_temperature, search_device]
      at hok ⊢ <;>
    rw [read_registers_of_ok _ _ _ _ hok] <;>
    refine ⟨by simp [received_data_to_float_snd, XYTEKFLOW_CMD_USR_REQ_FLOW_RATE_AVG1S,
      XYTEKFLOW_CMD_USR_REQ_VOL, XYTEKFLOW_CMD_USR_REQ_POS_VOL, XYTEKFLOW_CMD_USR_REQ_NEG_VOL,
      XYTEKFLOW_CMD_SYSTEM_STAT, XYTEKFLOW_CMD_APP_REQ_TEMP, XYTEKFLOW_CMD_SEARCH_DEVICE], ?_⟩ <;>
    intro i hi <;>
    simp only [XYTEKFLOW_CMD_USR_REQ_FLOW_RATE_AVG1S,
      XYTEKFLOW_CMD_USR_REQ_VOL, XYTEKFLOW_CMD_USR_REQ_POS_VOL, XYTEKFLOW_CMD_USR_REQ_NEG_VOL,
      XYTEKFLOW_CMD_SYSTEM_STAT, XYTEKFLOW_CMD_APP_REQ_TEMP, XYTEKFLOW_CMD_SEARCH_DEVICE,
      Nat.lt_one_iff] at hi ⊢ <;>
    first
      | (subst hi
         simp [received_data_to_float_snd, getResponseBuffer_after_read, rd, r1, hcons])
      | (rcases two i hi with rfl | rfl <;>
         simp [received_data_to_float_snd, getResponseBuffer_after_read, rd, r2, hcons])

/-- After an acknowledged read the cached readings are determined by the
readings before the call and the first `cmd.2` response words. -/
theorem run_cached_congr (op : ReadOp) (s s2 : XYTEKFlow) (bus bus2 : Bus)
    (hlen : s.received_data.length = RECEIVED_DATA_SIZE)
    (hlen2 : s2.received_data.length = RECEIVED_DATA_SIZE)
    (hc : s.cached = s2.cached)
    (hok : bus.status s.node.log op.txn = ku8MBSuccess)
    (hok2 : bus2.status s2.node.log op.txn = ku8MBSuccess)
    (hw : ∀ i, i < op.cmd.2 →
      bus.response s.node.log op.txn i % 65536 = bus2.response s2.node.log op.txn i % 65536) :
    (op.run s bus).2.cached = (op.run s2 bus2).2.cached := by
  obtain ⟨x, y, l, hcons⟩ := s.received_data_cons_cons hlen
  obtain ⟨x2, y2, l2, hcons2⟩ := s2.received_data_cons_cons hlen2
  have r1 : List.range 1 = [0] := rfl
  have r2 : List.range 2 = [0, 1] := rfl
  simp only [cached, List.cons.injEq, and_true] at hc
  obtain ⟨c1, c2, c3, c4, c5, c6, c7⟩ := hc
  cases op <;>
    simp only [ReadOp.run, ReadOp.txn, ReadOp.cmd, read_flowrate, read_volume_net,
      read_volume_pos, read_volume_neg, read_status, read_temperature, search_device]
      at hok hok2 hw ⊢ <;>
    rw [read_registers_of_ok _ _ _ _ hok, read_registers_of_ok _ _ _ _ hok2] <;>
    simp only [XYTEKFLOW_CMD_USR_REQ_FLOW_RATE_AVG1S,
      XYTEKFLOW_CMD_USR_REQ_VOL, XYTEKFLOW_CMD_USR_REQ_POS_VOL, XYTEKFLOW_CMD_USR_REQ_NEG_VOL,
      XYTEKFLOW_CMD_SYSTEM_STAT, XYTEKFLOW_CMD_APP_REQ_TEMP, XYTEKFLOW_CMD_SEARCH_DEVICE]
      at hw ⊢ <;>
    first
      | (have w0 := hw 0 (by decide)
         have w1 := hw 1 (by decide)
         simp [cached, received_data_to_float_eq, getResponseBuffer_after_read,
           received_data_to_float_snd, rd, r2, hcons, hcons2, c1, c2, c3, c4, c5, c6, c7,
           w0, w1])
      | (have w0 := hw 0 (by decide)
         simp [cached, getResponseBuffer_after_read, rd, r1, hcons, hcons2, c1, c2, c3, c4,
           c5, c6, c7, w0])

/-- For every read operation the last of its `cmd.2` response words matters:
two acknowledged replies that differ in that word only leave different cached
readings. -/
theorem run_uses_last_word (op : ReadOp) :
    ∃ r r2 : Nat → Nat, (∀ i, i ≠ op.cmd.2 - 1 → r i = r2 i) ∧
      (op.run sampleDriver { status := fun _ _ => ku8MBSuccess, response := fun _ _ => r }).2.cached
        ≠ (op.run sampleDriver
            { status := fun _ _ => ku8MBSuccess, response := fun _ _ => r2 }).2.cached := by
  refine ⟨fun _ => 0, fun i => if i = op.cmd.2 - 1 then 1 else 0, ?_, ?_⟩
  · intro i hi
    simp [hi]
  · cases op <;> decide

/-- C9. Every read operation requests exactly the (address, word count) pair
of its row of the command table: `search_device` (0x613, 2), `read_status`
(0x813, 1), `read_temperature` (0x815, 1), `read_volume_net` (0x1002, 2),
`read_volume_pos` (0x1004, 2), `read_volume_neg` (0x1006, 2) and
`read_flowrate` (0x100A, 2), the 1-second moving-average row and not the
instantaneous one at 0x1008. The word count is at most the buffer capacity 40
and is the number of received words the decoder consumes: an acknowledged
read fills exactly that many entries of the receive buffer, the cached
readings afterwards depend on the reply through these words only, and they do
depend on the last of them. So no decoder reads a word that the transaction
did not fill. -/
theorem read_commands_match_decoders :
    (ReadOp.search_device.cmd = (0x613, 2) ∧ ReadOp.read_status.cmd = (0x813, 1) ∧
      ReadOp.read_temperature.cmd = (0x815, 1) ∧ ReadOp.read_volume_net.cmd = (0x1002, 2) ∧
      ReadOp.read_volume_pos.cmd = (0x1004, 2) ∧ ReadOp.read_volume_neg.cmd = (0x1006, 2) ∧
      ReadOp.read_flowrate.cmd = (0x100A, 2)) ∧
    (ReadOp.read_flowrate.cmd = XYTEKFLOW_CMD_USR_REQ_FLOW_RATE_AVG1S ∧
      XYTEKFLOW_CMD_USR_REQ_FLOW_RATE_REALTIME = (0x1008, 2) ∧
      ReadOp.read_flowrate.cmd.1 ≠ XYTEKFLOW_CMD_USR_REQ_FLOW_RATE_REALTIME.1) ∧
    (∀ (op : ReadOp) (s : XYTEKFlow) (bus : Bus),
      (op.run s bus).2.node.log
        = s.node.log ++ [Txn.readHoldingRegisters op.cmd.1 op.cmd.2]) ∧
    (RECEIVED_DATA_SIZE = 40 ∧ ∀ op : ReadOp, op.cmd.2 ≤ RECEIVED_DATA_SIZE) ∧
    (∀ (op : ReadOp) (s : XYTEKFlow) (bus : Bus),
      s.received_data.length = RECEIVED_DATA_SIZE →
      bus.status s.node.log op.txn = ku8MBSuccess →
      (op.run s bus).2.received_length = op.cmd.2 ∧
        ∀ i, i < op.cmd.2 →
          (op.run s bus).2.rd i = bus.response s.node.log op.txn i % 65536) ∧
    (∀ (op : ReadOp) (s s2 : XYTEKFlow) (bus bus2 : Bus),
      s.received_data.length = RECEIVED_DATA_SIZE →
      s2.received_data.length = RECEIVED_DATA_SIZE →
      s.cached = s2.cached →
      bus.status s.node.log op.txn = ku8MBSuccess →
      bus2.status s2.node.log op.txn = ku8MBSuccess →
      (∀ i, i < op.cmd.2 →
        bus.response s.node.log op.txn i % 65536
          = bus2.response s2.node.log op.txn i % 65536) →
      (op.run s bus).2.cached = (op.run s2 bus2).2.cached) ∧
    (∀ op : ReadOp, ∃ r r2 : Nat → Nat, (∀ i, i ≠ op.cmd.2 - 1 → r i = r2 i) ∧
      (op.run sampleDriver
          { status := fun _ _ => ku8MBSuccess, response := fun _ _ => r }).2.cached
        ≠ (op.run sampleDriver
            { status := fun _ _ => ku8MBSuccess, response := fun _ _ => r2 }).2.cached) := by
  refine ⟨by decide, by decide, fun op s bus => (run_log op s bus).1, ⟨rfl, ?_⟩,
    run_fills, run_cached_congr, run_uses_last_word⟩
  intro op
  cases op <;> decide

/-- C1 at a concrete input: `read_flowrate` on the sample object over a bus
that times out. -/
theorem failed_read_keeps_cache_witness :
    timeoutBus.status sampleDriver.node.log ReadOp.read_flowrate.txn ≠ ku8MBSuccess ∧
      ((ReadOp.read_flowrate.run sampleDriver timeoutBus).1 = false ∧
        (ReadOp.read_flowrate.run sampleDriver timeoutBus).2.flow_rate = 0x3F800000 ∧
        (ReadOp.read_flowrate.run sampleDriver timeoutBus).2.flow_volume_net = 0x40000000 ∧
        (ReadOp.read_flowrate.run sampleDriver timeoutBus).2.flow_volume_pos = 0x40400000 ∧
        (ReadOp.read_flowrate.run sampleDriver timeoutBus).2.flow_volume_neg = 0x40800000 ∧
        (ReadOp.read_flowrate.run sampleDriver timeoutBus).2.temperature = 251 ∧
        (ReadOp.read_flowrate.run sampleDriver timeoutBus).2.search_device_response = 6 ∧
        (ReadOp.read_flowrate.run sampleDriver timeoutBus).2.system_status = 122) :=
  ⟨by decide, failed_read_keeps_cache ReadOp.read_flowrate sampleDriver timeoutBus (by decide)⟩

/-- C3 at a concrete input: three invocations of `loop` on the sample object,
which starts in stage 0. -/
theorem loop_alternates_witness :
    sampleDriver.read_data_stage = 0 ∧
      ((sampleDriver.loops xykjBus [10, 20, 30]).node.log
          = [Txn.readHoldingRegisters 0x100A 2, Txn.readHoldingRegisters 0x1002 2,
              Txn.readHoldingRegisters 0x100A 2] ∧
        (sampleDriver.loops xykjBus [10, 20, 30]).read_data_stage = 1) :=
  ⟨rfl, (loop_alternates sampleDriver xykjBus [10, 20, 30] rfl).1,
    (loop_alternates sampleDriver xykjBus [10, 20, 30] rfl).2.2.2.2.1⟩

/-- C5 at a concrete input: the pattern of 5.0 survives the round trip. -/
theorem float_roundtrip_witness :
    0x40A00000 < 2 ^ 32 ∧
      ({ sampleDriver with received_data :=
            (sampleDriver.ftemp.set_f 0x40A00000).u16 0 ::
              (sampleDriver.ftemp.set_f 0x40A00000).u16 1 :: []
          }.received_data_to_float 0).1 = 0x40A00000 :=
  ⟨by decide, float_roundtrip 0x40A00000 (by decide) sampleDriver []⟩

/-- C6 at a concrete input: offset 0 of the sample object, whose receive
buffer is all zero. -/
theorem received_data_to_float_assembles_witness :
    (0 + 1 < sampleDriver.received_data.length ∧
      sampleDriver.received_data.length = RECEIVED_DATA_SIZE ∧
      ∀ w ∈ sampleDriver.received_data, w < 65536) ∧
    ({ sampleDriver with ftemp := { u8_0 := 1, u8_1 := 2, u8_2 := 3, u8_3 := 4 }
        }.received_data_to_float 0).1 = 0 :=
  ⟨⟨by decide, by decide, by simp [sampleDriver]⟩, by
    have h := (received_data_to_float_assembles sampleDriver 0
      { u8_0 := 1, u8_1 := 2, u8_2 := 3, u8_3 := 4 } [] (by decide) (by decide)
      (by simp [sampleDriver])).1
    simpa [sampleDriver] using h⟩

/-- The decoding lemma at a concrete input: `read_status` on the sample object
over a bus that answers `0x4B58`. -/
theorem successful_read_decodes_witness :
    (sampleDriver.received_data.length = RECEIVED_DATA_SIZE ∧
      xykjBus.status sampleDriver.node.log ReadOp.read_status.txn = ku8MBSuccess) ∧
    ((ReadOp.read_status.run sampleDriver xykjBus).1 = true ∧
      (ReadOp.read_status.run sampleDriver xykjBus).2.cached
        = [0x3F800000, 0x40000000, 0x40400000, 0x40800000, 251, 6, 0x4B58]) :=
  ⟨⟨by decide, by decide⟩,
    successful_read_decodes ReadOp.read_status sampleDriver xykjBus (by decide) (by decide)⟩

/-- C9 at a concrete input: an acknowledged `read_flowrate` on the sample
object fills two entries of the receive buffer. -/
theorem read_commands_match_decoders_witness :
    (sampleDriver.received_data.length = RECEIVED_DATA_SIZE ∧
      xykjBus.status sampleDriver.node.log ReadOp.read_flowrate.txn = ku8MBSuccess) ∧
    (ReadOp.read_flowrate.run sampleDriver xykjBus).2.received_length = 2 :=
  ⟨⟨by decide, by decide⟩,
    (read_commands_match_decoders.2.2.2.2.1 ReadOp.read_flowrate sampleDriver xykjBus
      (by decide) (by decide)).1⟩

end XYTEKFlow
